import Mathlib

/-!
Verification development for the Restaurant-orders service (src/server.js).

The embedding models the Express handlers of server.js over an explicit
relational-store state.  Pure computations (totals, bill-number formatting,
date-parameter normalization) become Lean functions; the stateful order
creation handler becomes an explicit state-passing function over a `Store`
value, with a fault oracle standing for store errors, so that every
control-flow path of the try/catch/finally block is represented.
-/

/-- Model of the JavaScript idiom `parseFloat(x.toFixed(2))` used in
server.js: rounding a number to 2 decimal places (exact rational
arithmetic; `round` is round-half-up, matching toFixed on the values
arising here). -/
def round2 (q : ℚ) : ℚ := (round (q * 100) : ℤ) / 100

/-- Model of JavaScript `String.prototype.padStart(n, c)`: pad on the left
with `c` up to length `n`; a string already at least `n` long is returned
unchanged. -/
def padStart (s : String) (n : Nat) (c : Char) : String :=
  String.mk (List.replicate (n - s.length) c) ++ s

/-- Bill number formatting from server.js line 56:
`BILL-` followed by the decimal representation of the sequence value,
left-padded with zeros to at least 6 digits. -/
def billNumber (n : Nat) : String := "BILL-" ++ padStart (Nat.repr n) 6 '0'

/-- A line item of an incoming order payload: `{item_name, price, quantity}`. -/
structure Item where
  item_name : String
  price : ℚ
  quantity : ℚ
deriving DecidableEq

/-- The `items` field of a request body: it can be absent, present but not
an array (in both cases `items.reduce` throws), or an array of items. -/
inductive ItemsField where
  | missing : ItemsField
  | nonSeq : ItemsField
  | seq (l : List Item) : ItemsField
deriving DecidableEq

/-- Request payload of POST /api/orders (server.js lines 35-41). -/
structure Payload where
  customer_name : String
  table_number : Option Nat
  order_type : String
  payment_status : String
  items : ItemsField

/-- Model of `items.reduce(...)` from server.js line 49: evaluates to the
sum of price*quantity when `items` is an array and throws (None) otherwise. -/
def itemsReduce : ItemsField → Option (List Item)
  | .seq l => some l
  | _ => none

/-- Subtotal computation of server.js line 49: a left fold starting at 0,
adding price*quantity per item, with no rounding. -/
def subtotalOf (items : List Item) : ℚ :=
  items.foldl (fun sum it => sum + it.price * it.quantity) 0

/-- The four financial figures computed by server.js lines 49-52, in order:
subtotal, discount (10% of subtotal, rounded), gst (18% of the discounted
subtotal, rounded), total_amount (rounded). -/
def orderTotals (items : List Item) : ℚ × ℚ × ℚ × ℚ :=
  let subtotal := subtotalOf items
  let discount := round2 (subtotal * (10/100))
  let gst := round2 ((subtotal - discount) * (18/100))
  let total_amount := round2 (subtotal - discount + gst)
  (subtotal, discount, gst, total_amount)

/-- A persisted row of the `orders` table.  The insert at server.js
lines 59-75 fills every column except `customer_phone`, which the dashboard
queries read and which therefore stays at its column default (null) for
rows created by this service.  Timestamps are modelled as seconds. -/
structure OrderRow where
  id : Nat
  customer_name : String
  customer_phone : Option String
  table_number : Option Nat
  subtotal : ℚ
  discount : ℚ
  gst : ℚ
  total_amount : ℚ
  order_type : String
  payment_status : String
  bill_number : String
  created_at : Nat
deriving DecidableEq

/-- A persisted row of the `order_items` table (server.js lines 80-93). -/
structure OrderItemRow where
  order_id : Nat
  item_name : String
  price : ℚ
  quantity : ℚ
  total : ℚ
  created_at : Nat
deriving DecidableEq

/-- Modelled from the spec: the relational store owned by the external
db module (required as `./db`, not under src/): tables `orders` and
`order_items`, the sequence `bill_number_seq`, and the identity counter for
order ids. -/
structure Store where
  orders : List OrderRow
  order_items : List OrderItemRow
  seq : Nat
  nextId : Nat
deriving DecidableEq

/-- A data-modifying statement that a transactional client could buffer. -/
inductive StoreOp where
  | insertOrder (row : OrderRow) : StoreOp
  | insertItem (row : OrderItemRow) : StoreOp

/-- Applying one buffered statement to the store. -/
def applyOp (st : Store) : StoreOp → Store
  | .insertOrder row =>
      { st with orders := st.orders ++ [row], nextId := st.nextId + 1 }
  | .insertItem row => { st with order_items := st.order_items ++ [row] }

/-- Modelled from the spec: COMMIT on a checked-out client applies the
statements buffered in its open transaction to the store. -/
def commitClient (txn : List StoreOp) (st : Store) : Store :=
  txn.foldl applyOp st

/-- Modelled from the spec: ROLLBACK on a checked-out client discards the
statements buffered in its open transaction; the store is untouched. -/
def rollbackClient (_txn : List StoreOp) (st : Store) : Store :=
  st

/-- Modelled from the spec: `db.query` runs a single statement on a pooled
connection in autocommit mode - its effect reaches the store immediately
and is NOT part of any transaction open on a separately checked-out
client.  Effect of the nextval query (server.js line 55). -/
def dbNextval (st : Store) : Store × Nat :=
  ({ st with seq := st.seq + 1 }, st.seq + 1)

/-- Effect of the orders INSERT issued through `db.query` (server.js
lines 59-75): autocommitted, returns the fresh order id. -/
def dbInsertOrder (st : Store) (p : Payload) (now : Nat)
    (subtotal discount gst total_amount : ℚ) (bill : String) : Store × Nat :=
  let oid := st.nextId
  ({ st with
      nextId := oid + 1,
      orders := st.orders ++
        [⟨oid, p.customer_name, none, p.table_number, subtotal, discount,
          gst, total_amount, p.order_type, p.payment_status, bill, now⟩] },
   oid)

/-- Effect of one order_items INSERT issued through `db.query` (server.js
lines 81-92): autocommitted. -/
def dbInsertItem (st : Store) (oid : Nat) (now : Nat) (it : Item) : Store :=
  { st with
      order_items := st.order_items ++
        [⟨oid, it.item_name, it.price, it.quantity,
          it.price * it.quantity, now⟩] }

/-- The store operations of the POST /api/orders body that can fail, used
as the domain of the fault oracle. -/
inductive Step where
  | nextval : Step
  | insertOrder : Step
  | insertItem (i : Nat) : Step
  | commit : Step
deriving DecidableEq

/-- The fault oracle under which no store operation fails. -/
def noFault : Step → Bool := fun _ => false

/-- The item-insert loop of server.js lines 80-93: items are inserted one
by one through `db.query`; a failure at index `i` aborts the loop with the
earlier autocommitted inserts already in the store. -/
def insertItems (fault : Step → Bool) (oid : Nat) (now : Nat) :
    Nat → List Item → Store → Store × Bool
  | _, [], st => (st, true)
  | i, it :: rest, st =>
      if fault (.insertItem i) then (st, false)
      else insertItems fault oid now (i + 1) rest (dbInsertItem st oid now it)

/-- Success response body of POST /api/orders (server.js lines 98-106). -/
structure SuccessBody where
  orderId : Nat
  billNumber : String
  subtotal : ℚ
  discount : ℚ
  gst : ℚ
  totalAmount : ℚ
deriving DecidableEq

/-- Response of POST /api/orders: HTTP 200 with the success body, or the
fixed HTTP 500 body `{success: false, message: "Error saving order"}`. -/
inductive OrderResponse where
  | ok (body : SuccessBody) : OrderResponse
  | err500 : OrderResponse
deriving DecidableEq

/-- Outcome of one POST /api/orders request: final store state, HTTP
response, and how many times the checked-out client was released. -/
structure COResult where
  store : Store
  response : OrderResponse
  releases : Nat
deriving DecidableEq

/-- The try block of server.js lines 45-106, after BEGIN has opened the
(empty) transaction buffer `txn` on the checked-out client.  Returns the
store and buffer as left by the block together with the success body, or
`none` when an exception was thrown part-way (partial autocommitted
effects remain in the returned store). -/
def tryBody (fault : Step → Bool) (p : Payload) (now : Nat) (st : Store)
    (txn : List StoreOp) :
    Store × List StoreOp × Option SuccessBody :=
  match itemsReduce p.items with
  | none => (st, txn, none)
  | some items =>
    let subtotal := subtotalOf items
    let discount := round2 (subtotal * (10/100))
    let gst := round2 ((subtotal - discount) * (18/100))
    let total_amount := round2 (subtotal - discount + gst)
    if fault .nextval then (st, txn, none)
    else
      let r1 := dbNextval st
      let bill_number := billNumber r1.2
      if fault .insertOrder then (r1.1, txn, none)
      else
        let r2 := dbInsertOrder r1.1 p now subtotal discount gst
            total_amount bill_number
        match insertItems fault r2.2 now 0 items r2.1 with
        | (st3, false) => (st3, txn, none)
        | (st3, true) =>
            if fault .commit then (st3, txn, none)
            else
              (commitClient txn st3, [],
               some ⟨r2.2, bill_number, subtotal, discount, gst,
                     total_amount⟩)

/-- The POST /api/orders handler (server.js lines 34-114): check out a
client, BEGIN, run the body; on an exception ROLLBACK the client
transaction and answer 500; in all cases release the client once
(the finally block). -/
def createOrder (fault : Step → Bool) (p : Payload) (now : Nat)
    (st : Store) : COResult :=
  let r := tryBody fault p now st []
  match r.2.2 with
  | some body => { store := r.1, response := .ok body, releases := 1 }
  | none =>
      { store := rollbackClient r.2.1 r.1, response := .err500,
        releases := 1 }

/-- Number of seconds in a day, used to relate calendar days to the
second-granularity timestamps of the model. -/
def secPerDay : Nat := 86400

/-- Modelled from the spec: the store cast of a date value to a timestamp
for comparison with `created_at` ($1::date versus a timestamp column):
midnight, the first instant of the day. -/
def dateToTs (d : Nat) : Nat := d * secPerDay

/-- Calendar day of a timestamp (the DATE() function of the store). -/
def dateOf (ts : Nat) : Nat := ts / secPerDay

/-- WHERE clause shared by the three date-filtered dashboard queries
(server.js lines 126-127, 147-148, 169-170): a null bound is no filter on
its side; a non-null bound d is compared as `created_at >= d` resp.
`created_at <= d` after d is cast to the midnight timestamp. -/
def inRange (startD endD : Option Nat) (ts : Nat) : Bool :=
  (match startD with
   | none => true
   | some d => decide (dateToTs d ≤ ts)) &&
  (match endD with
   | none => true
   | some d => decide (ts ≤ dateToTs d))

/-- Order rows satisfying the shared dashboard WHERE clause. -/
def filterOrders (startD endD : Option Nat) (orders : List OrderRow) :
    List OrderRow :=
  orders.filter (fun o => inRange startD endD o.created_at)

/-- Comparator of ORDER BY total_sales DESC (server.js line 129). -/
def salesDesc (a b : String × ℚ) : Prop := b.2 ≤ a.2

instance : DecidableRel salesDesc :=
  fun a b => inferInstanceAs (Decidable (b.2 ≤ a.2))

instance : IsTotal (String × ℚ) salesDesc := ⟨fun a b => le_total b.2 a.2⟩

instance : IsTrans (String × ℚ) salesDesc :=
  ⟨fun _ _ _ h1 h2 => le_trans h2 h1⟩

/-- Comparator of ORDER BY date (ascending, server.js line 150). -/
def dateAsc (a b : Nat × ℚ) : Prop := a.1 ≤ b.1

instance : DecidableRel dateAsc :=
  fun a b => inferInstanceAs (Decidable (a.1 ≤ b.1))

instance : IsTotal (Nat × ℚ) dateAsc := ⟨fun a b => le_total a.1 b.1⟩

instance : IsTrans (Nat × ℚ) dateAsc := ⟨fun _ _ _ h1 h2 => le_trans h1 h2⟩

/-- A result row of the top-pending-customers query: the grouping key
(customer_name, customer_phone) with pending_bills_count and
total_pending_amount. -/
def PendRow : Type := (String × Option String) × Nat × ℚ

/-- Comparator of ORDER BY total_pending_amount DESC (server.js
line 191). -/
def pendDesc (a b : PendRow) : Prop := b.2.2 ≤ a.2.2

instance : DecidableRel pendDesc :=
  fun a b => inferInstanceAs (Decidable (b.2.2 ≤ a.2.2))

instance : IsTotal PendRow pendDesc := ⟨fun a b => le_total b.2.2 a.2.2⟩

instance : IsTrans PendRow pendDesc := ⟨fun _ _ _ h1 h2 => le_trans h2 h1⟩

/-- Query of GET /api/dashboard/sales-by-item (server.js lines 121-130):
join order_items to the date-filtered orders, group by item_name, sum the
item totals, order by total_sales descending. -/
def salesByItem (startD endD : Option Nat) (orders : List OrderRow)
    (items : List OrderItemRow) : List (String × ℚ) :=
  let os := filterOrders startD endD orders
  let joined := items.filter (fun it => os.any (fun o => o.id == it.order_id))
  let keys := (joined.map (fun it => it.item_name)).dedup
  List.insertionSort salesDesc
    (keys.map (fun k =>
      (k, ((joined.filter (fun it => it.item_name == k)).map
            (fun it => it.total)).sum)))

/-- Query of GET /api/dashboard/daily-sales (server.js lines 143-151):
group the date-filtered orders by calendar day of created_at, sum
total_amount, order by date ascending. -/
def dailySales (startD endD : Option Nat) (orders : List OrderRow) :
    List (Nat × ℚ) :=
  let os := filterOrders startD endD orders
  let keys := (os.map (fun o => dateOf o.created_at)).dedup
  List.insertionSort dateAsc
    (keys.map (fun d =>
      (d, ((os.filter (fun o => dateOf o.created_at == d)).map
            (fun o => o.total_amount)).sum)))

/-- Query of GET /api/dashboard/payment-status-distribution (server.js
lines 164-172): group the date-filtered orders by payment_status with a
row count and a total_amount sum (no ORDER BY). -/
def paymentStatusDistribution (startD endD : Option Nat)
    (orders : List OrderRow) : List (String × Nat × ℚ) :=
  let os := filterOrders startD endD orders
  ((os.map (fun o => o.payment_status)).dedup).map (fun s =>
    let g := os.filter (fun o => o.payment_status == s)
    (s, g.length, (g.map (fun o => o.total_amount)).sum))

/-- The WHERE clause of the top-pending-customers query (server.js
line 189): only orders with payment_status Pending. -/
def pendingOrders (orders : List OrderRow) : List OrderRow :=
  orders.filter (fun o => o.payment_status == "Pending")

/-- The GROUP BY of the top-pending-customers query (server.js
line 190): one row per (customer_name, customer_phone) key among the
pending orders, carrying COUNT(*) and SUM(total_amount). -/
def pendingRows (orders : List OrderRow) : List PendRow :=
  ((pendingOrders orders).map
      (fun o => (o.customer_name, o.customer_phone))).dedup.map
    (fun k =>
      let g := (pendingOrders orders).filter
        (fun o => (o.customer_name, o.customer_phone) == k)
      (k, g.length, (g.map (fun o => o.total_amount)).sum))

/-- Query of GET /api/dashboard/top-pending-customers (server.js
lines 183-193): restrict to payment_status = Pending, group by
(customer_name, customer_phone), count and sum, order by
total_pending_amount descending, limit 5. -/
def topPendingCustomers (orders : List OrderRow) : List PendRow :=
  (List.insertionSort pendDesc (pendingRows orders)).take 5

/-- Normalization of an optional query parameter, server.js line 115:
only the absent value (undefined) becomes null; any present string,
including the empty string, passes through unchanged. -/
def parseParam (param : Option String) : Option String :=
  match param with
  | none => none
  | some s => some s

/-- Modelled from the spec: the store parse of a text query parameter cast
to `date` ($1::date).  Date values are abstracted as day indices written
in decimal; a string that is not a decimal numeral - the empty string in
particular - is not a valid date literal and makes the query fail. -/
def castDate (s : String) : Option Nat := s.toNat?

/-- Binding one normalized date parameter into the query: a null is a
null bound (no filter), a string must parse as a date or the whole query
errors. -/
def bindDate : Option String → Option (Option Nat)
  | none => some none
  | some s => (castDate s).map some

/-- Response of a dashboard endpoint: HTTP 200 with rows, or the fixed
HTTP 500 body `{error: "Internal server error"}` when the store reports
an error. -/
inductive DashResult (α : Type) where
  | rows (r : α) : DashResult α
  | err500 : DashResult α
deriving DecidableEq

/-- The GET /api/dashboard/sales-by-item handler (server.js
lines 117-137): normalize the two query parameters with parseParam, run
the query, answer 500 on a store error (in particular a failing date
cast). -/
def salesByItemHandler (startDate endDate : Option String)
    (orders : List OrderRow) (items : List OrderItemRow) :
    DashResult (List (String × ℚ)) :=
  match bindDate (parseParam startDate), bindDate (parseParam endDate) with
  | some sd, some ed => .rows (salesByItem sd ed orders items)
  | _, _ => .err500

/-- Modelled from the spec: subtotal as the sum of price times quantity
over the items (spec section 4.3 step 1). -/
def specSubtotal (items : List Item) : ℚ :=
  (items.map (fun it => it.price * it.quantity)).sum

/-- Modelled from the spec: discount = round2(subtotal x 0.10). -/
def specDiscount (subtotal : ℚ) : ℚ := round2 (subtotal * (10/100))

/-- Modelled from the spec: gst = round2((subtotal - discount) x 0.18). -/
def specGst (subtotal discount : ℚ) : ℚ :=
  round2 ((subtotal - discount) * (18/100))

/-- Modelled from the spec: total_amount = round2(subtotal - discount + gst). -/
def specTotalAmount (subtotal discount gst : ℚ) : ℚ :=
  round2 (subtotal - discount + gst)

theorem foldl_add_eq_sum (l : List Item) (acc : ℚ) :
    l.foldl (fun sum it => sum + it.price * it.quantity) acc =
      acc + (l.map (fun it => it.price * it.quantity)).sum := by
  induction l generalizing acc with
  | nil => simp
  | cons it rest ih => simp [List.foldl_cons, ih, add_assoc]

theorem subtotalOf_eq_spec (items : List Item) :
    subtotalOf items = specSubtotal items := by
  simpa [subtotalOf, specSubtotal] using foldl_add_eq_sum items 0

/-- C2: for every items sequence the handler computes the unrounded
subtotal, discount = round2(subtotal x 0.10), gst =
round2((subtotal - discount) x 0.18) and total_amount =
round2(subtotal - discount + gst); concretely a single line of price 100
and quantity 1 gives subtotal 100, discount 10, gst 16.20 and total
106.20. -/
theorem c2_order_totals :
    (∀ items : List Item,
      orderTotals items =
        (specSubtotal items,
         specDiscount (specSubtotal items),
         specGst (specSubtotal items) (specDiscount (specSubtotal items)),
         specTotalAmount (specSubtotal items)
           (specDiscount (specSubtotal items))
           (specGst (specSubtotal items)
             (specDiscount (specSubtotal items))))) ∧
    orderTotals [⟨"Thali", 100, 1⟩] = (100, 10, 81/5, 531/5) := by
  constructor
  · intro items
    simp [orderTotals, subtotalOf_eq_spec, specDiscount, specGst,
      specTotalAmount]
  · have hsub : subtotalOf [⟨"Thali", 100, 1⟩] = 100 := by
      simp [subtotalOf]
    simp only [orderTotals, hsub]
    rw [round2, round2, round2]
    norm_num

/-- C3: billNumber is BILL- followed by the decimal digits of the
sequence value, zero-padded on the left to at least 6 digits and never
truncated: the digit string is a suffix, the total length is
5 + max 6 (number of digits), 7 gives BILL-000007 and 1234567 gives
BILL-1234567. -/
theorem c3_bill_number_format :
    billNumber 7 = "BILL-000007" ∧
    billNumber 1234567 = "BILL-1234567" ∧
    ∀ n : Nat,
      billNumber n =
        "BILL-" ++ (String.mk (List.replicate (6 - (Nat.repr n).length) '0')
          ++ Nat.repr n) ∧
      (billNumber n).length = 5 + max 6 (Nat.repr n).length ∧
      List.IsSuffix (Nat.repr n).data (billNumber n).data := by
  refine ⟨by decide, by decide, fun n => ⟨rfl, ?_, ?_⟩⟩
  · have h : (6 : Nat) - (Nat.repr n).length + (Nat.repr n).length =
        max 6 (Nat.repr n).length := tsub_add_eq_max
    have hdata : (billNumber n).data =
        "BILL-".data ++ (List.replicate (6 - (Nat.repr n).length) '0' ++
          (Nat.repr n).data) := by
      simp [billNumber, padStart]
    have h5 : ("BILL-".data).length = 5 := rfl
    calc (billNumber n).length = (billNumber n).data.length := rfl
      _ = 5 + ((6 - (Nat.repr n).length) + (Nat.repr n).length) := by
          have hr : (Nat.repr n).data.length = (Nat.repr n).length := rfl
          rw [hdata, List.length_append, List.length_append,
            List.length_replicate, h5, hr]
      _ = 5 + max 6 (Nat.repr n).length := by rw [h]
  · exact ⟨"BILL-".data ++ List.replicate (6 - (Nat.repr n).length) '0',
      by simp [billNumber, padStart]⟩

/-- C5: an empty items array is not rejected: subtotal, discount, gst and
total_amount are all 0, exactly one Order row is appended (with the next
bill number), no OrderItem row is created, and the response is the
success shape. -/
theorem c5_empty_items (p : Payload) (now : Nat) (st : Store)
    (h : p.items = ItemsField.seq []) :
    createOrder noFault p now st =
      { store :=
          { st with
              seq := st.seq + 1,
              nextId := st.nextId + 1,
              orders := st.orders ++
                [⟨st.nextId, p.customer_name, none, p.table_number, 0, 0, 0,
                  0, p.order_type, p.payment_status, billNumber (st.seq + 1),
                  now⟩] },
        response := OrderResponse.ok
          ⟨st.nextId, billNumber (st.seq + 1), 0, 0, 0, 0⟩,
        releases := 1 } := by
  have h0 : round2 0 = 0 := by simp [round2]
  simp [createOrder, tryBody, h, itemsReduce, subtotalOf, noFault,
    dbNextval, dbInsertOrder, insertItems, commitClient, h0]

/-- Concrete payload with an empty items array, for the C5 witness. -/
def c5Payload : Payload := ⟨"Asha", none, "Dine-In", "Paid", ItemsField.seq []⟩

/-- Concrete empty store, for the C5 witness. -/
def c5Store : Store := ⟨[], [], 0, 1⟩

/-- Witness for C5 at a concrete empty-items payload and empty store. -/
theorem c5_empty_items_witness :
    c5Payload.items = ItemsField.seq [] ∧
    createOrder noFault c5Payload 0 c5Store =
      { store :=
          { c5Store with
              seq := 1,
              nextId := 2,
              orders := [⟨1, "Asha", none, none, 0, 0, 0, 0, "Dine-In",
                "Paid", billNumber 1, 0⟩] },
        response := OrderResponse.ok ⟨1, billNumber 1, 0, 0, 0, 0⟩,
        releases := 1 } :=
  ⟨rfl, c5_empty_items c5Payload 0 c5Store rfl⟩

/-- C9: when the items field is absent or not an array, the reduce call
throws before any store statement runs: whatever the fault oracle, the
store is completely unchanged (no Order row, no OrderItem row, sequence
untouched), the response is the generic 500 failure shape, and the client
is released once. -/
theorem c9_invalid_items (fault : Step → Bool) (p : Payload) (now : Nat)
    (st : Store)
    (h : p.items = ItemsField.missing ∨ p.items = ItemsField.nonSeq) :
    createOrder fault p now st =
      { store := st, response := OrderResponse.err500, releases := 1 } := by
  rcases h with h | h <;>
    simp [createOrder, tryBody, h, itemsReduce, rollbackClient]

/-- Concrete payload with a missing items field, for the C9 witness. -/
def c9Payload : Payload := ⟨"Vikram", some 2, "Takeaway", "Pending",
  ItemsField.missing⟩

/-- Witness for C9 at a concrete items-less payload. -/
theorem c9_invalid_items_witness :
    (c9Payload.items = ItemsField.missing ∨
      c9Payload.items = ItemsField.nonSeq) ∧
    createOrder noFault c9Payload 7 ⟨[], [], 3, 4⟩ =
      { store := ⟨[], [], 3, 4⟩, response := OrderResponse.err500,
        releases := 1 } :=
  ⟨Or.inl rfl, c9_invalid_items noFault c9Payload 7 ⟨[], [], 3, 4⟩
    (Or.inl rfl)⟩

/-- C8: on every execution path of the order handler - success, failure
of any store statement, or the throw from an invalid items field - the
checked-out client is released exactly once. -/
theorem c8_release_exactly_once (fault : Step → Bool) (p : Payload)
    (now : Nat) (st : Store) :
    (createOrder fault p now st).releases = 1 := by
  cases hb : (tryBody fault p now st []).2.2 <;> simp [createOrder, hb]

/-- Fault oracle that fails exactly the OrderItem insert of index 1 (the
second item), as in the fault-injection scenario of the spec. -/
def c1Fault : Step → Bool := fun s => decide (s = Step.insertItem 1)

/-- Concrete two-item payload for the C1 fault-injection scenario. -/
def c1Payload : Payload :=
  ⟨"Asha", some 4, "Dine-In", "Pending",
    ItemsField.seq [⟨"Tea", 10, 1⟩, ⟨"Roti", 20, 2⟩]⟩

/-- Concrete empty store for the C1 fault-injection scenario. -/
def c1Store : Store := ⟨[], [], 0, 1⟩

/-- C1 evaluation: with two items and the second OrderItem insert
failing, the handler answers the 500 failure - yet after its ROLLBACK the
Order row and the first OrderItem row are still in the store, because
every insert ran through the autocommitting pool query and not through
the client that held the transaction.  Atomicity as claimed does not
hold. -/
theorem c1_rollback_does_not_undo_inserts :
    (createOrder c1Fault c1Payload 0 c1Store).response =
      OrderResponse.err500 ∧
    ((createOrder c1Fault c1Payload 0 c1Store).store.orders.map
      (fun o => (o.id, o.bill_number))) = [(1, "BILL-000001")] ∧
    ((createOrder c1Fault c1Payload 0 c1Store).store.order_items.map
      (fun it => (it.order_id, it.item_name))) = [(1, "Tea")] :=
  ⟨rfl, rfl, rfl⟩

/-- Concrete order created at 01:00 on calendar day 5, used for C4. -/
def c4Order : OrderRow :=
  ⟨1, "Bela", none, none, 100, 10, 81/5, 531/5, "Dine-In", "Paid",
    "BILL-000001", 5 * secPerDay + 3600⟩

/-- Concrete order_items row belonging to c4Order, used for C4. -/
def c4Item : OrderItemRow := ⟨1, "Tea", 10, 1, 10, 5 * secPerDay + 3600⟩

/-- C4 counterexample: an order created at 01:00 on day 5 falls on the
endDate calendar day 5 but is excluded from every date-filtered dashboard
aggregate with endDate = 5, because the bound compares created_at against
midnight of day 5.  The claim that endDate is inclusive of the whole day
is therefore false on the code. -/
theorem c4_end_date_excludes_end_day :
    dateOf c4Order.created_at = 5 ∧
    filterOrders none (some 5) [c4Order] = [] ∧
    salesByItem none (some 5) [c4Order] [c4Item] = [] ∧
    dailySales none (some 5) [c4Order] = [] ∧
    paymentStatusDistribution none (some 5) [c4Order] = [] :=
  ⟨rfl, rfl, rfl, rfl, rfl⟩

/-- C4 amended: membership in the shared dashboard date filter is
exactly: no bound or midnight-of-startDate at or before created_at on the
start side, and no bound or created_at at or before midnight-of-endDate
on the end side.  Hence a supplied startDate includes the whole start day
(midnight is at or before every instant of that day), while a supplied
endDate admits only the single midnight instant of the endDate day. -/
theorem c4_amended_date_bounds (sd ed : Option Nat) (o : OrderRow)
    (db : List OrderRow) :
    (o ∈ filterOrders sd ed db ↔
      o ∈ db ∧ (∀ d, sd = some d → dateToTs d ≤ o.created_at) ∧
        (∀ d, ed = some d → o.created_at ≤ dateToTs d)) ∧
    (∀ d ts, dateOf ts = d → dateToTs d ≤ ts) := by
  constructor
  · simp only [filterOrders, List.mem_filter, inRange, Bool.and_eq_true,
      decide_eq_true_eq]
    cases sd <;> cases ed <;> simp
  · intro d ts h
    subst h
    simpa [dateToTs, dateOf] using Nat.div_mul_le_self ts secPerDay

/-- Witness for C4 amended: with endDate = 6 the day-5 order is admitted,
and midnight of day 5 is at or before the created_at instant of an order
on day 5. -/
theorem c4_amended_date_bounds_witness :
    c4Order ∈ filterOrders none (some 6) [c4Order] ∧
    dateToTs 5 ≤ c4Order.created_at := by
  constructor
  · apply ((c4_amended_date_bounds none (some 6) c4Order [c4Order]).1).mpr
    refine ⟨List.mem_singleton_self c4Order, ?_, ?_⟩
    · exact fun d hd => Option.noConfusion hd
    · intro d hd
      injection hd with h
      subst h
      decide
  · exact (c4_amended_date_bounds none none c4Order []).2 5
      c4Order.created_at rfl

theorem filterOrders_none_none (orders : List OrderRow) :
    filterOrders none none orders = orders := by
  simp [filterOrders, inRange]

theorem filterOrders_covering (orders : List OrderRow) (lo hi : Nat)
    (h : ∀ o ∈ orders,
      dateToTs lo ≤ o.created_at ∧ o.created_at ≤ dateToTs hi) :
    filterOrders (some lo) (some hi) orders = orders := by
  refine List.filter_eq_self.mpr (fun o ho => ?_)
  simpa [inRange] using h o ho

/-- C6: a dashboard aggregate called with both date parameters absent
(null bounds) returns exactly the same rows as the same aggregate called
with explicit bounds that cover every order in the store. -/
theorem c6_absent_bounds_equal_all_time (orders : List OrderRow)
    (items : List OrderItemRow) (lo hi : Nat)
    (h : ∀ o ∈ orders,
      dateToTs lo ≤ o.created_at ∧ o.created_at ≤ dateToTs hi) :
    salesByItem none none orders items =
      salesByItem (some lo) (some hi) orders items ∧
    dailySales none none orders = dailySales (some lo) (some hi) orders ∧
    paymentStatusDistribution none none orders =
      paymentStatusDistribution (some lo) (some hi) orders := by
  have key : filterOrders (some lo) (some hi) orders =
      filterOrders none none orders :=
    (filterOrders_covering orders lo hi h).trans
      (filterOrders_none_none orders).symm
  refine ⟨?_, ?_, ?_⟩ <;>
    simp only [salesByItem, dailySales, paymentStatusDistribution, key]

/-- Concrete order on day 2, used for the C6 witness. -/
def c6Order : OrderRow :=
  ⟨1, "Dev", none, none, 50, 5, 9, 54, "Dine-In", "Pending",
    "BILL-000001", 2 * secPerDay + 100⟩

/-- Witness for C6 at a one-order store with all-time bounds 0 and 10. -/
theorem c6_absent_bounds_equal_all_time_witness :
    (∀ o ∈ [c6Order],
      dateToTs 0 ≤ o.created_at ∧ o.created_at ≤ dateToTs 10) ∧
    dailySales none none [c6Order] =
      dailySales (some 0) (some 10) [c6Order] :=
  ⟨by decide,
    (c6_absent_bounds_equal_all_time [c6Order] [] 0 10 (by decide)).2.1⟩

/-- C7: for every store state, topPendingCustomers returns at most 5
rows, every returned row is keyed by the (name, phone) of some order
whose payment_status is Pending, and the rows are sorted by
total_pending_amount descending. -/
theorem c7_top_pending_customers (orders : List OrderRow) :
    (topPendingCustomers orders).length ≤ 5 ∧
    (∀ r ∈ topPendingCustomers orders, ∃ o, o ∈ orders ∧
      o.payment_status = "Pending" ∧
      r.1 = (o.customer_name, o.customer_phone)) ∧
    List.Sorted pendDesc (topPendingCustomers orders) := by
  refine ⟨List.length_take_le 5 _, ?_, ?_⟩
  · intro r hr
    have hr1 : r ∈ List.insertionSort pendDesc (pendingRows orders) :=
      List.mem_of_mem_take hr
    have hr2 : r ∈ pendingRows orders :=
      (List.mem_insertionSort pendDesc).1 hr1
    rcases List.mem_map.1 hr2 with ⟨k, hk, hfk⟩
    rcases List.mem_map.1 (List.mem_dedup.1 hk) with ⟨o, ho, hko⟩
    have ho2 := List.mem_filter.1 ho
    refine ⟨o, ho2.1, by simpa using ho2.2, ?_⟩
    rw [← hfk, ← hko]
  · exact ((List.sorted_insertionSort pendDesc
      (pendingRows orders)).sublist (List.take_sublist 5 _))

/-- C10: parseParam maps only the absent parameter to null: every present
string, the empty string included, passes through unchanged, so an
empty-string date bound is not treated as no bound - it reaches the store
as an invalid date literal and the endpoint answers the generic 500
error. -/
theorem c10_parse_param_passthrough :
    parseParam none = none ∧
    (∀ s : String, parseParam (some s) = some s) ∧
    parseParam (some "") ≠ none ∧
    (∀ orders items,
      salesByItemHandler (some "") none orders items =
        DashResult.err500) :=
  ⟨rfl, fun _ => rfl, fun h => Option.noConfusion h,
    fun _ _ => rfl⟩
